import Mathlib

/- Shallow embedding of `my.py` from the gsm_latest_data_full_automation
repository: the spec-table normalization engine
(`transform_gsmarena_to_formatted`), its category/key lookup (`get_spec`),
the crawl ledger (`load_scraped_links_from_csv`, `append_to_csv`, and the
`new_links_to_scrape` diff), and the per-item batch loop of `__main__`.
Python strings are modelled as Lean `String` / `List Char`; Python dicts
(which have unique keys here) as first-match association lists; the regular
expressions of the formatter are modelled by dedicated leftmost-match
scanners, one per pattern. -/

/-- The non-breaking space character U+00A0 (Python's `"\xa0"`). -/
def nbspChar : Char := Char.ofNat 160

/-- First-match association-list lookup, modelling Python `dict.get`. -/
def lookupA {α : Type} : List (String × α) → String → Option α
  | [], _ => none
  | (k, v) :: rest, key => if k = key then some v else lookupA rest key

/-- Two-level raw `specs` mapping: category → attribute label → raw text. -/
abbrev Specs := List (String × List (String × String))

/-- The raw record produced by `scrape_device` (my.py lines 102-172). -/
structure RawSpecRecord where
  url : String
  name : String
  image : Option String
  highlights : List String
  specs : Specs

/-- Characters treated as whitespace by Python's `str.strip()` and by `\s`
in a `str` regular expression, restricted to the characters that can occur
in this program's text: ASCII whitespace plus the non-breaking space
(which Python 3 also treats as whitespace). -/
def isWsChar (c : Char) : Bool :=
  c = ' ' || c = '\t' || c = '\n' || c = '\r' || c = Char.ofNat 11 ||
    c = Char.ofNat 12 || c = nbspChar

/-- The same whitespace characters as a list, for two-sided stripping. -/
def wsChars : List Char :=
  [' ', '\t', '\n', '\r', Char.ofNat 11, Char.ofNat 12, nbspChar]

/-- Python `key.replace("  ", "\xa0")` (my.py line 194): left-to-right,
non-overlapping replacement of each two-plain-space occurrence. -/
def normKey : List Char → List Char
  | ' ' :: ' ' :: rest => nbspChar :: normKey rest
  | c :: rest => c :: normKey rest
  | [] => []

/-- Function `get_spec` from `transform_gsmarena_to_formatted` (my.py lines 192-195):
`data.get("specs", {}).get(category, {}).get(key, default)` after the key
normalization.  The `specs` argument stands for `data.get("specs", {})`
(every record built by `scrape_device` carries a `specs` key). -/
def get_spec (specs : Specs) (category key dflt : String) : String :=
  let key2 := String.mk (normKey key.toList)
  (lookupA ((lookupA specs category).getD []) key2).getD dflt

/-- Shorthand: `get_spec` with its default `""` third argument, as most call sites. -/
def getS (specs : Specs) (category key : String) : String :=
  get_spec specs category key ""

/- ---------- Crawl ledger (my.py lines 36-53 and 424) ---------- -/

/-- The ledger CSV as parsed rows; `none` models a missing file. -/
abbrev LedgerFile := Option (List (List String))

/-- Function `load_scraped_links_from_csv` (my.py lines 36-45): missing file gives
the empty set; otherwise the first row (header) is consumed by
`next(reader)` and `row[1]` is collected from every remaining row with
more than one cell. -/
def load_scraped_links_from_csv : LedgerFile → List String
  | none => []
  | some rows => (rows.drop 1).filterMap (fun row => row[1]?)

/-- Function `append_to_csv` (my.py lines 47-53): write the header row only when
the file did not exist, then append one `[device_name, url]` row. -/
def append_to_csv (file : LedgerFile) (device_name url : String) :
    List (List String) :=
  match file with
  | none => [["Device Name", "URL"], [device_name, url]]
  | some rows => rows ++ [[device_name, url]]

/-- The ledger diff (my.py line 424):
`[link for link in all_links if link not in scraped_links]`. -/
def new_links_to_scrape (all_links scraped_links : List String) :
    List String :=
  all_links.filter (fun link => !scraped_links.contains link)

/- ---------- Batch orchestrator loop (my.py lines 430-455) ---------- -/

/-- One item of the work set, abstracted by the outcomes of its external
steps: `extracted` is `some name` when `scrape_device` returns a record
(it catches its own exceptions and returns `None` on failure), and
`persistOk` says whether the unguarded disk writes of the loop body
succeed. -/
structure ItemRun where
  url : String
  extracted : Option String
  persistOk : Bool

/-- The `for` loop of `__main__` (my.py lines 430-455), threading the
ledger: an extraction failure (`raw_data` falsy) skips the item; a
successful item appends `(name, url)` to the ledger after persistence; a
persistence failure raises out of the loop (there is no per-item handler
around the disk writes), modelled by `Except.error` carrying the ledger
reached so far. -/
def processItems : List ItemRun → List (String × String) →
    Except (List (String × String)) (List (String × String))
  | [], ledger => Except.ok ledger
  | item :: rest, ledger =>
    match item.extracted with
    | none => processItems rest ledger
    | some name =>
      if item.persistOk then
        processItems rest (ledger ++ [(name, item.url)])
      else
        Except.error ledger

/- ---------- Regular-expression machinery ----------
Each Python pattern used by the formatter is modelled by an at-position
matcher (`...At`) over `List Char`, lifted to `re.search` semantics
(leftmost match) by `searchPos`.  The patterns are simple enough that
greedy quantifier consumption agrees with Python's backtracking: in every
pattern a `\d+`/`\s*`/`\s+` run is followed by a literal that cannot
extend the run. -/

/-- Greedy `\d+`: the nonempty leading digit run and the remainder. -/
def takeDigits (s : List Char) : Option (List Char × List Char) :=
  let ds := s.takeWhile Char.isDigit
  if ds.isEmpty then none else some (ds, s.dropWhile Char.isDigit)

/-- Greedy `\s*`: the leading whitespace run and the remainder. -/
def takeWsStar (s : List Char) : List Char × List Char :=
  (s.takeWhile isWsChar, s.dropWhile isWsChar)

/-- Greedy `\s+`: like `takeWsStar` but the run must be nonempty. -/
def takeWsPlus (s : List Char) : Option (List Char × List Char) :=
  let ws := s.takeWhile isWsChar
  if ws.isEmpty then none else some (ws, s.dropWhile isWsChar)

/-- Consume a literal (case-insensitively when `ci` is true), returning
the consumed source characters and the remainder. -/
def litAt (ci : Bool) : List Char → List Char → Option (List Char × List Char)
  | [], s => some ([], s)
  | _ :: _, [] => none
  | l :: ls, c :: cs =>
    if (if ci then c.toLower = l.toLower else c = l) then
      match litAt ci ls cs with
      | some (tk, rest) => some (c :: tk, rest)
      | none => none
    else none

/-- Optional fraction `(\.\d+)?`: consumed characters and remainder. -/
def optFrac : List Char → List Char × List Char
  | '.' :: r =>
    match takeDigits r with
    | some (ds, r2) => ('.' :: ds, r2)
    | none => ([], '.' :: r)
  | s => ([], s)

/-- Python `re.search`: try the at-position matcher at each position, leftmost
first (Python also tries the empty tail; none of our patterns match it,
but the scanner is faithful and tries it too). -/
def searchPos {α : Type} (f : List Char → Option α) : List Char → Option α
  | [] => f []
  | c :: rest =>
    match f (c :: rest) with
    | some r => some r
    | none => searchPos f rest

/-- At-position matcher for `(\d+\s*mAh)` (my.py line 241); returns the
matched text (group 0 equals group 1 here). -/
def mAhAt (s : List Char) : Option (List Char) :=
  match takeDigits s with
  | none => none
  | some (ds, r1) =>
    let (ws, r2) := takeWsStar r1
    match litAt false ['m', 'A', 'h'] r2 with
    | none => none
    | some (lit, _) => some (ds ++ ws ++ lit)

/-- At-position matcher for `(\d+(\.\d+)?W)\s+<tag>` with `re.IGNORECASE`
(my.py lines 252-253, tag `wired` or `wireless`); returns group 1. -/
def wSpeedAt (tag : List Char) (s : List Char) : Option (List Char) :=
  match takeDigits s with
  | none => none
  | some (ds, r1) =>
    let (fr, r2) := optFrac r1
    match litAt true ['w'] r2 with
    | none => none
    | some (wc, r3) =>
      match takeWsPlus r3 with
      | none => none
      | some (_, r4) =>
        match litAt true tag r4 with
        | none => none
        | some _ => some (ds ++ fr ++ wc)

/-- At-position matcher for `(\d+Hz)` (my.py line 272); group 1. -/
def hzAt (s : List Char) : Option (List Char) :=
  match takeDigits s with
  | none => none
  | some (ds, r1) =>
    match litAt false ['H', 'z'] r1 with
    | none => none
    | some (lit, _) => some (ds ++ lit)

/-- At-position matcher for `(\d+(\.\d+)?%)\s*\(screen-to-body ratio\)`
(my.py line 277); group 1. -/
def s2bAt (s : List Char) : Option (List Char) :=
  match takeDigits s with
  | none => none
  | some (ds, r1) =>
    let (fr, r2) := optFrac r1
    match litAt false ['%'] r2 with
    | none => none
    | some (pc, r3) =>
      let (_, r4) := takeWsStar r3
      match litAt false "(screen-to-body ratio)".toList r4 with
      | none => none
      | some _ => some (ds ++ fr ++ pc)

/-- At-position matcher for `(\d+)\s*nits\s*\(peak\)` with `re.IGNORECASE`
(my.py line 281); group 1. -/
def brightAt (s : List Char) : Option (List Char) :=
  match takeDigits s with
  | none => none
  | some (ds, r1) =>
    let (_, r2) := takeWsStar r1
    match litAt true "nits".toList r2 with
    | none => none
    | some (_, r3) =>
      let (_, r4) := takeWsStar r3
      match litAt true "(peak)".toList r4 with
      | none => none
      | some _ => some ds

/-- The `(?:GB|TB)` alternation, tried in that order. -/
def gbTbAt (s : List Char) : Option (List Char × List Char) :=
  match litAt false ['G', 'B'] s with
  | some r => some r
  | none => litAt false ['T', 'B'] s

/-- At-position matcher for `(\d+\s*(?:GB|TB))\s+(\d+\s*GB)\s+RAM`
(my.py line 300); returns (group 1, group 2).  `re.findall(...)[0]` is its
leftmost match, i.e. `searchPos memPairAt`. -/
def memPairAt (s : List Char) : Option (List Char × List Char) :=
  match takeDigits s with
  | none => none
  | some (ds, r1) =>
    let (w1, r2) := takeWsStar r1
    match gbTbAt r2 with
    | none => none
    | some (u, r3) =>
      match takeWsPlus r3 with
      | none => none
      | some (_, r4) =>
        match takeDigits r4 with
        | none => none
        | some (ds2, r5) =>
          let (w2, r6) := takeWsStar r5
          match litAt false ['G', 'B'] r6 with
          | none => none
          | some (g2, r7) =>
            match takeWsPlus r7 with
            | none => none
            | some (_, r8) =>
              match litAt false ['R', 'A', 'M'] r8 with
              | none => none
              | some _ => some (ds ++ w1 ++ u, ds2 ++ w2 ++ g2)

/-- At-position matcher for `(\d+\s*(?:GB|TB))` (my.py line 306). -/
def storageAt (s : List Char) : Option (List Char) :=
  match takeDigits s with
  | none => none
  | some (ds, r1) =>
    let (w1, r2) := takeWsStar r1
    match gbTbAt r2 with
    | none => none
    | some (u, _) => some (ds ++ w1 ++ u)

/-- At-position matcher for `(\d+\s*GB)\s+RAM` (my.py line 307). -/
def ramAt (s : List Char) : Option (List Char) :=
  match takeDigits s with
  | none => none
  | some (ds, r1) =>
    let (w1, r2) := takeWsStar r1
    match litAt false ['G', 'B'] r2 with
    | none => none
    | some (g, r3) =>
      match takeWsPlus r3 with
      | none => none
      | some (_, r4) =>
        match litAt false ['R', 'A', 'M'] r4 with
        | none => none
        | some _ => some (ds ++ w1 ++ g)

/-- At-position matcher for `f/\d+(\.\d+)?` (my.py line 219); group 0. -/
def apertureAt (s : List Char) : Option (List Char) :=
  match litAt false ['f', '/'] s with
  | none => none
  | some (fp, r1) =>
    match takeDigits r1 with
    | none => none
    | some (ds, r2) =>
      let (fr, _) := optFrac r2
      some (fp ++ ds ++ fr)

/-- At-position matcher for `\d+\s*mm` (my.py line 220); group 0. -/
def mmAt (s : List Char) : Option (List Char) :=
  match takeDigits s with
  | none => none
  | some (ds, r1) =>
    let (ws, r2) := takeWsStar r1
    match litAt false ['m', 'm'] r2 with
    | none => none
    | some (lit, _) => some (ds ++ ws ++ lit)

/- ---------- Python string operations ---------- -/

/-- Try to remove `p` from the front of `s` (Python substring matching at
one position); `some` carries the remainder. -/
def stripPre : List Char → List Char → Option (List Char)
  | [], s => some s
  | _ :: _, [] => none
  | p :: ps, c :: cs => if c = p then stripPre ps cs else none

theorem stripPre_length_le :
    ∀ (p s r : List Char), stripPre p s = some r → r.length ≤ s.length := by
  intro p
  induction p with
  | nil =>
    intro s r h
    simp [stripPre] at h
    simp [h]
  | cons x xs ih =>
    intro s r h
    cases s with
    | nil => simp [stripPre] at h
    | cons c cs =>
      simp only [stripPre] at h
      by_cases hc : c = x
      · simp [hc] at h
        exact Nat.le_succ_of_le (ih cs r h)
      · simp [hc] at h

/-- Python `needle in haystack` (substring containment). -/
def hasSub (needle : List Char) : List Char → Bool
  | [] => (stripPre needle []).isSome
  | c :: cs => (stripPre needle (c :: cs)).isSome || hasSub needle cs

/-- Python `s.replace(pat, "")` for the non-empty pattern `d :: ds`:
left-to-right removal of every non-overlapping occurrence.  Structural
recursion on a fuel argument so that the definition computes by kernel
reduction; every removal consumes at least one character, so fuel equal to
the length of `s` (as supplied by `replAllL`) always suffices and the
fuel-exhausted arm is unreachable. -/
def replAll (d : Char) (ds : List Char) : Nat → List Char → List Char
  | 0, _ => []
  | _, [] => []
  | fuel + 1, c :: cs =>
    if c = d then
      match stripPre ds cs with
      | some rest => replAll d ds fuel rest
      | none => c :: replAll d ds fuel cs
    else c :: replAll d ds fuel cs

/-- Wrapper around `replAll` taking the pattern as one list.  (At every call site
the pattern is a regex match beginning with a digit, hence non-empty; the
empty-pattern arm is unreachable.) -/
def replAllL (pat : List Char) (s : List Char) : List Char :=
  match pat with
  | [] => s
  | d :: ds => replAll d ds s.length s

/-- Drop leading characters of `s` belonging to `chs`. -/
def dropLeading (chs : List Char) (s : List Char) : List Char :=
  s.dropWhile (fun c => chs.contains c)

/-- Python `s.strip(chs)`: drop characters of `chs` from both ends. -/
def stripChars (chs : List Char) (s : List Char) : List Char :=
  (dropLeading chs (dropLeading chs s).reverse).reverse

/-- Python `s.strip()` (no argument): strip whitespace from both ends. -/
def pyStrip (s : List Char) : List Char :=
  stripChars wsChars s

/-- Python `s.lower()` on the ASCII text this program handles. -/
def lowerAll (s : List Char) : List Char :=
  s.map Char.toLower

/-- Python `s.split(sep)` for a one-character separator: no collapsing of
adjacent separators, and the result is always non-empty. -/
def pySplit (sep : Char) : List Char → List (List Char)
  | [] => [[]]
  | c :: cs =>
    match pySplit sep cs with
    | h :: t => if c = sep then [] :: h :: t else (c :: h) :: t
    | [] => [[c]]

theorem pySplit_ne_nil (sep : Char) (l : List Char) : pySplit sep l ≠ [] := by
  cases l with
  | nil => simp [pySplit]
  | cons c cs =>
    simp only [pySplit]
    cases h : pySplit sep cs with
    | nil => simp
    | cons x xs =>
      by_cases hc : c = sep <;> simp [hc]

/-- Python `a or b` on strings: `b` when `a` is empty (falsy), else `a`. -/
def pyOr (a b : String) : String :=
  if a = "" then b else a

/-- Python `"".join(parts)`: concatenation with no separator. -/
def joinAll : List String → String
  | [] => ""
  | s :: rest => s ++ joinAll rest

/- ---------- Normalization engine (my.py lines 186-357) ---------- -/

/-- Variable `capacity` (my.py lines 241-242): the first `(\d+\s*mAh)` match of the
raw battery-type string, stripped; `""` when there is no match. -/
def battCapacity (bts : String) : String :=
  match searchPos mAhAt bts.toList with
  | some m => String.mk (pyStrip m)
  | none => ""

/-- Variable `type_info` (my.py line 243): when the capacity pattern matched, the
raw string with every occurrence of the matched text removed and comma or
space characters stripped from both ends; else the raw string itself. -/
def battTypeInfo (bts : String) : String :=
  match searchPos mAhAt bts.toList with
  | some m => String.mk (stripChars [',', ' '] (replAllL m bts.toList))
  | none => bts

/-- Battery `"Type:"` (my.py line 246): `type_info`, plus the suffix
`", Not user replaceable"` when it contains `non-removable`
case-insensitively. -/
def battTypeField (bts : String) : String :=
  if hasSub "non-removable".toList (lowerAll (battTypeInfo bts).toList) then
    battTypeInfo bts ++ ", Not user replaceable"
  else battTypeInfo bts

/-- Battery `"Max charge speed:"` (my.py lines 251-257): `"".join` of the
optional `"Wired: <g1>"` and `"Wireless: <g1>"` parts. -/
def battMaxSpeed (chargingStr : String) : String :=
  let speeds :=
    (match searchPos (wSpeedAt "wired".toList) chargingStr.toList with
     | some m => ["Wired: " ++ String.mk m]
     | none => []) ++
    (match searchPos (wSpeedAt "wireless".toList) chargingStr.toList with
     | some m => ["Wireless: " ++ String.mk m]
     | none => [])
  joinAll speeds

/-- The Battery section (my.py lines 239-257). -/
def batteryData (specs : Specs) : List (String × String) :=
  let bts := get_spec specs "BATTERY" "Type" ""
  [("Type:", battTypeField bts),
   ("Capacity:", battCapacity bts),
   ("Charging:", getS specs "BATTERY" "Charging"),
   ("Max charge speed:", battMaxSpeed (getS specs "BATTERY" "Charging"))]

/-- Display `"Refresh rate:"` (my.py lines 272-274). -/
def dispRefresh (dts : String) : String :=
  match searchPos hzAt dts.toList with
  | some m => String.mk m
  | none => ""

/-- Display `"Screen-to-body:"` (my.py lines 276-279). -/
def dispS2b (sizeStr : String) : String :=
  match searchPos s2bAt sizeStr.toList with
  | some m => String.mk m ++ " %"
  | none => ""

/-- Display `"Peak brightness:"` (my.py lines 281-283). -/
def dispBright (dts : String) : String :=
  match searchPos brightAt dts.toList with
  | some m => String.mk m ++ " cd/m2 (nit)"
  | none => ""

/-- The Display section (my.py lines 260-283). -/
def displayData (specs : Specs) : List (String × String) :=
  [("Size:", String.mk (pyStrip ((pySplit ',' (getS specs "DISPLAY" "Size").toList).headD []))),
   ("Features:", getS specs "FEATURES" "Sensors"),
   ("Resolution:", getS specs "DISPLAY" "Resolution"),
   ("Technology:", String.mk ((pySplit ',' (getS specs "DISPLAY" "Type").toList).headD [])),
   ("Refresh rate:", dispRefresh (getS specs "DISPLAY" "Type")),
   ("Screen-to-body:", dispS2b (getS specs "DISPLAY" "Size")),
   ("Peak brightness:", dispBright (getS specs "DISPLAY" "Type")),
   ("Front cover display:", pyOr (getS specs "DISPLAY" "Secondary display") "")]

/-- Python `re.findall(pair_pattern, internal_mem)[0]` when non-empty
(my.py line 300): the leftmost (storage, RAM) pair. -/
def memPairOf (im : String) : Option (List Char × List Char) :=
  searchPos memPairAt im.toList

/-- Variable `storage` (my.py lines 301-308): first component of the first pair, or
the single storage-size pattern fallback, or `""`. -/
def hwStorage (im : String) : String :=
  match memPairOf im with
  | some pr => String.mk pr.1
  | none =>
    match searchPos storageAt im.toList with
    | some s => String.mk s
    | none => ""

/-- Variable `ram` (my.py lines 301-309): second component of the first pair, or
the single RAM pattern fallback, or `""`. -/
def hwRam (im : String) : String :=
  match memPairOf im with
  | some pr => String.mk pr.2
  | none =>
    match searchPos ramAt im.toList with
    | some r => String.mk r
    | none => ""

/-- Hardware `"Internal storage:"` (my.py line 317): the storage text with
`" (UFS)"`, plus `", not expandable"` when the looked-up card-slot text
lowercased is `"no"` or `""`. -/
def hwInternalField (im cardSlot : String) : String :=
  if (["no", ""] : List String).contains (String.mk (lowerAll cardSlot.toList)) then
    hwStorage im ++ " (UFS), not expandable"
  else hwStorage im ++ " (UFS)"

/-- The Hardware section (my.py lines 297-318). -/
def hardwareData (specs : Specs) : List (String × String) :=
  let im := get_spec specs "MEMORY" "Internal" ""
  [("OS:", getS specs "PLATFORM" "OS"),
   ("GPU:", getS specs "PLATFORM" "GPU"),
   ("RAM:", hwRam im),
   ("Processor:", getS specs "PLATFORM" "Chipset"),
   ("Device type:", "Smartphone"),
   ("Internal storage:", hwInternalField im (getS specs "MEMORY" "Card slot"))]

/-- Variable `main_cam_spec` (my.py line 210): the `or`-chain over the module keys
Triple, Quad, Dual, Single, in that order. -/
def mainCamSpecOf (specs : Specs) : String :=
  pyOr (getS specs "MAIN CAMERA" "Triple")
    (pyOr (getS specs "MAIN CAMERA" "Quad")
      (pyOr (getS specs "MAIN CAMERA" "Dual") (getS specs "MAIN CAMERA" "Single")))

/-- Variable `cam_specs` (my.py line 213): the newline-split lines, each stripped. -/
def camSpecsOf (specs : Specs) : List (List Char) :=
  (pySplit '\n' (mainCamSpecOf specs).toList).map pyStrip

/-- The `camera_data["Specifications:"]` body (my.py lines 218-224) applied to
`cam_specs[0]`: optional aperture and focal-length parts joined by `' '`. -/
def camSpecString (l0 : List Char) : String :=
  let apPart :=
    match searchPos apertureAt l0 with
    | some a => ["Aperture size: " ++ String.mk (a.map Char.toUpper)]
    | none => []
  let flPart :=
    match searchPos mmAt l0 with
    | some m => ["Focal Length: " ++ String.mk m]
    | none => []
  String.intercalate " " (apPart ++ flPart)

/-- The Camera section (my.py lines 197-224): the dict literal, with the
conditional updates of lines 211-224 folded into the field values (they
assign only to keys that already exist). -/
def cameraData (specs : Specs) : List (String × String) :=
  let mcs := mainCamSpecOf specs
  let lines := camSpecsOf specs
  [("Rear:", if mcs = "" then "" else String.mk ((pySplit '\n' mcs.toList).headD [])),
   ("Flash:", getS specs "MAIN CAMERA" "Features"),
   ("Front:", pyOr (getS specs "SELFIE CAMERA" "Single") (getS specs "SELFIE CAMERA" "Dual")),
   ("Folded:", ""),
   ("Main camera:", if mcs = "" then "" else String.mk (lines.headD [])),
   ("Second camera:",
     if mcs = "" then ""
     else
       match lines with
       | _ :: l2 :: _ => String.mk l2
       | _ => ""),
   ("Third camera:",
     if mcs = "" then ""
     else
       match lines with
       | _ :: _ :: l3 :: _ => String.mk l3
       | _ => ""),
   ("Specifications:", if mcs = "" then "" else camSpecString (lines.headD [])),
   ("Video recording:", getS specs "MAIN CAMERA" "Video")]

/-- The Design section (my.py lines 227-237). -/
def designData (specs : Specs) : List (String × String) :=
  [("Keys:", "Right: Volume control, Lock/Unlock key"),
   ("Colors:", getS specs "MISC" "Colors"),
   ("Folded:", getS specs "BODY" "Folded"),
   ("Weight:", getS specs "BODY" "Weight"),
   ("Materials:", getS specs "BODY" "Build"),
   ("Biometrics:", getS specs "FEATURES" "Sensors"),
   ("Dimensions:", getS specs "BODY" "Dimensions"),
   ("Resistance:", pyOr (getS specs "BODY" "  ") (getS specs "BODY" ""))]

/-- The Cellular section (my.py lines 286-294). -/
def cellularData (specs : Specs) : List (String × String) :=
  [("Technology:", getS specs "NETWORK" "Technology"),
   ("2G bands:", getS specs "NETWORK" "2G bands"),
   ("3G bands:", getS specs "NETWORK" "3G bands"),
   ("4G bands:", getS specs "NETWORK" "4G bands"),
   ("5G bands:", getS specs "NETWORK" "5G bands"),
   ("SIM type:", getS specs "BODY" "SIM")]

/-- The Multimedia section (my.py lines 321-327). -/
def multimediaData (specs : Specs) : List (String × String) :=
  [("Speakers:", getS specs "SOUND" "Loudspeaker"),
   ("Headphones:", getS specs "SOUND" "3.5mm jack"),
   ("Screen mirroring:", "Wireless screen share"),
   ("Additional microphone(s):",
     if hasSub "dedicated mic".toList (lowerAll (get_spec specs "SOUND" "  " "").toList) then
       "Noise cancellation"
     else "")]

/-- The Connectivity & Features section (my.py lines 329-342). -/
def connectivityData (specs : Specs) : List (String × String) :=
  let others :=
    (if getS specs "COMMS" "NFC" = "" then [] else ["NFC"]) ++
    (if getS specs "COMMS" "Infrared port" = "" then [] else ["Infrared"])
  [("USB:", getS specs "COMMS" "USB"),
   ("Other:", String.intercalate ", " others),
   ("Wi-Fi:", getS specs "COMMS" "WLAN"),
   ("Sensors:", getS specs "FEATURES" "Sensors"),
   ("Features:", getS specs "COMMS" "USB"),
   ("Location:", getS specs "COMMS" "Positioning"),
   ("Bluetooth:", getS specs "COMMS" "Bluetooth")]

/-- Function `transform_gsmarena_to_formatted` (my.py lines 186-357): the fixed
eight-section output record. -/
def transform_gsmarena_to_formatted (data : RawSpecRecord) :
    List (String × List (String × String)) :=
  [("Camera", cameraData data.specs),
   ("Design", designData data.specs),
   ("Battery", batteryData data.specs),
   ("Display", displayData data.specs),
   ("Cellular", cellularData data.specs),
   ("Hardware", hardwareData data.specs),
   ("Multimedia", multimediaData data.specs),
   ("Connectivity & Features", connectivityData data.specs)]

/-- Two-level lookup into a formatted record: section then label. -/
def lookup2 (rec : List (String × List (String × String)))
    (sec lbl : String) : Option String :=
  match lookupA rec sec with
  | none => none
  | some m => lookupA m lbl

/-- A raw record whose `specs` mapping is empty (a page without a spec
table). -/
def emptyRecord : RawSpecRecord :=
  ⟨"", "", none, [], []⟩

/- ---------- Spec-described twin definitions ---------- -/

/-- Modelled from the claim's words (C3): normalize the key by replacing
every two-plain-space occurrence with one non-breaking space, then return
`specs[category][key]` when both the category and the normalized key are
present, else the default. -/
def get_spec_described (specs : Specs) (category key dflt : String) : String :=
  let nk := String.mk (normKey key.toList)
  match lookupA specs category with
  | none => dflt
  | some m =>
    match lookupA m nk with
    | none => dflt
    | some v => v

/-- Modelled from the spec's words (C6): a fallback chain takes the first
non-empty value in priority order. -/
def firstNonEmpty : List String → String
  | [] => ""
  | s :: rest => if s = "" then firstNonEmpty rest else s

/-- Modelled from the claim's words (C7): "Type: is the raw string with
the matched capacity removed", with the conditional suffix — i.e. without
the `strip(', ')` end-trimming the code performs. -/
def battTypeClaim (bts : String) : String :=
  match searchPos mAhAt bts.toList with
  | none => bts
  | some m =>
    let removed := String.mk (replAllL m bts.toList)
    if hasSub "non-removable".toList (lowerAll removed.toList) then
      removed ++ ", Not user replaceable"
    else removed

/- ---------- Claim theorems ---------- -/

/-- Claim C1 counterexample: on a record with empty `specs`, the Design
section's "Keys:" field is the hard-coded string
"Right: Volume control, Lock/Unlock key", not the empty string as the
claim requires. -/
theorem c1_counterexample :
    lookup2 (transform_gsmarena_to_formatted emptyRecord) "Design" "Keys:" =
      some "Right: Volume control, Lock/Unlock key" ∧
    lookup2 (transform_gsmarena_to_formatted emptyRecord) "Design" "Keys:" ≠
      some "" := by
  constructor
  · rfl
  · decide

/-- Claim C1 (amended): for every record whose `specs` mapping is empty,
normalization returns — without raising, being a total function — the
record in which every field of every one of the eight sections is the
empty string EXCEPT four hard-coded values: Design "Keys:"
(a generic constant), Hardware "Device type:" (`"Smartphone"`),
Hardware "Internal storage:" (which degrades to `" (UFS), not expandable"`
because the absent card slot behaves like `"no"`), and Multimedia
"Screen mirroring:" (`"Wireless screen share"`). -/
theorem c1_amended (data : RawSpecRecord) (h : data.specs = []) :
    transform_gsmarena_to_formatted data =
      [("Camera",
         [("Rear:", ""), ("Flash:", ""), ("Front:", ""), ("Folded:", ""),
          ("Main camera:", ""), ("Second camera:", ""), ("Third camera:", ""),
          ("Specifications:", ""), ("Video recording:", "")]),
       ("Design",
         [("Keys:", "Right: Volume control, Lock/Unlock key"), ("Colors:", ""),
          ("Folded:", ""), ("Weight:", ""), ("Materials:", ""),
          ("Biometrics:", ""), ("Dimensions:", ""), ("Resistance:", "")]),
       ("Battery",
         [("Type:", ""), ("Capacity:", ""), ("Charging:", ""),
          ("Max charge speed:", "")]),
       ("Display",
         [("Size:", ""), ("Features:", ""), ("Resolution:", ""),
          ("Technology:", ""), ("Refresh rate:", ""), ("Screen-to-body:", ""),
          ("Peak brightness:", ""), ("Front cover display:", "")]),
       ("Cellular",
         [("Technology:", ""), ("2G bands:", ""), ("3G bands:", ""),
          ("4G bands:", ""), ("5G bands:", ""), ("SIM type:", "")]),
       ("Hardware",
         [("OS:", ""), ("GPU:", ""), ("RAM:", ""), ("Processor:", ""),
          ("Device type:", "Smartphone"),
          ("Internal storage:", " (UFS), not expandable")]),
       ("Multimedia",
         [("Speakers:", ""), ("Headphones:", ""),
          ("Screen mirroring:", "Wireless screen share"),
          ("Additional microphone(s):", "")]),
       ("Connectivity & Features",
         [("USB:", ""), ("Other:", ""), ("Wi-Fi:", ""), ("Sensors:", ""),
          ("Features:", ""), ("Location:", ""), ("Bluetooth:", "")])] := by
  unfold transform_gsmarena_to_formatted
  rw [h]
  decide

/-- Witness for the amended C1 at the concrete empty-specs record. -/
theorem c1_amended_witness :
    lookup2 (transform_gsmarena_to_formatted emptyRecord) "Hardware"
      "Internal storage:" = some " (UFS), not expandable" := by
  rw [c1_amended emptyRecord rfl]
  rfl

/-- Claim C2 counterexample: a persistence failure on the first item aborts
the whole batch — the run ends in the error state with no ledger entry, and
the second (healthy) item, which alone would have been processed and
ledgered, is never reached; contrary to the claim that no per-item failure
aborts the overall run. -/
theorem c2_counterexample :
    processItems [⟨"u1", some "d1", false⟩, ⟨"u2", some "d2", true⟩] [] =
      Except.error [] ∧
    processItems [⟨"u2", some "d2", true⟩] [] = Except.ok [("d2", "u2")] := by
  constructor <;> rfl

/-- Claim C2 (amended): in the batch loop, an extraction failure skips its
item (no record, no ledger entry) and processing continues with the next
item; a successfully extracted and persisted item appends its ledger entry
and continues; but a persistence (disk write) failure aborts that item's
remaining steps AND the entire remaining batch — the loop body has no
per-item handler around the disk writes, so the exception propagates and
ends the run (besides batch setup yielding no work, this is the other way
the run ends early). -/
theorem c2_amended (url name : String) (p : Bool) (rest : List ItemRun)
    (ledger : List (String × String)) :
    processItems (⟨url, none, p⟩ :: rest) ledger = processItems rest ledger ∧
    processItems (⟨url, some name, true⟩ :: rest) ledger =
      processItems rest (ledger ++ [(name, url)]) ∧
    processItems (⟨url, some name, false⟩ :: rest) ledger =
      Except.error ledger := by
  refine ⟨rfl, rfl, rfl⟩

/-- Claim C3: `get_spec` equals, for all inputs, the claim's described
lookup — first normalize the key (each two-plain-space occurrence becomes
one non-breaking space), then return `specs[category][key]` when both the
category and the normalized key are present and the default otherwise; it
is a total (never-raising) pure function of its inputs, absent category
and absent key both yielding the default; and the non-breaking-space quirk
lookup works on a concrete record. -/
theorem c3_get_spec (specs : Specs) (category key dflt : String) :
    get_spec specs category key dflt =
      get_spec_described specs category key dflt ∧
    get_spec [("BODY", [(String.mk [nbspChar], "IP68")])] "BODY" "  " "dft" =
      "IP68" ∧
    get_spec [("BODY", [(String.mk [nbspChar], "IP68")])] "OTHER" "  " "dft" =
      "dft" ∧
    get_spec [("BODY", [(String.mk [nbspChar], "IP68")])] "BODY" "missing"
      "dft" = "dft" := by
  refine ⟨?_, by decide, by decide, by decide⟩
  unfold get_spec get_spec_described
  cases hc : lookupA specs category with
  | none => simp [lookupA]
  | some m =>
    cases hk : lookupA m (String.mk (normKey key.data)) <;> simp [hk]

/-- Claim C4 counterexample: with an existing zero-row ledger file, the
entry written by `append_to_csv` is consumed as the CSV header row by the
subsequent load (`next(reader)`), so the appended URL is NOT in the loaded
set. -/
theorem c4_counterexample :
    append_to_csv (some []) "Device" "http://u" = [["Device", "http://u"]] ∧
    load_scraped_links_from_csv
      (some (append_to_csv (some []) "Device" "http://u")) = [] ∧
    "http://u" ∉ load_scraped_links_from_csv
      (some (append_to_csv (some []) "Device" "http://u")) := by
  refine ⟨rfl, rfl, by decide⟩

/-- Claim C4 (amended): the diff returns exactly the candidates not in the
loaded ledger set — membership is equivalent to being a candidate absent
from the load — and it preserves the original discovery order (it is a
sublist of the candidates), hence never returns a URL recorded in the
ledger; and after `append`, a subsequent load contains the appended URL,
provided the ledger file was absent or had at least one row (an existing
zero-row file makes the appended row be consumed as the header; see the
counterexample). -/
theorem c4_amended (cands : List String) (file : LedgerFile)
    (name url : String) (row : List String) (rows : List (List String)) :
    (∀ l, l ∈ new_links_to_scrape cands (load_scraped_links_from_csv file) ↔
      (l ∈ cands ∧ l ∉ load_scraped_links_from_csv file)) ∧
    (new_links_to_scrape cands (load_scraped_links_from_csv file)).Sublist
      cands ∧
    url ∈ load_scraped_links_from_csv (some (append_to_csv none name url)) ∧
    url ∈ load_scraped_links_from_csv
      (some (append_to_csv (some (row :: rows)) name url)) := by
  refine ⟨?_, ?_, ?_, ?_⟩
  · intro l
    simp [new_links_to_scrape, List.mem_filter]
  · exact List.filter_sublist _
  · simp [append_to_csv, load_scraped_links_from_csv]
  · simp only [append_to_csv, load_scraped_links_from_csv, List.cons_append,
      List.drop_succ_cons, List.drop_zero, List.mem_filterMap]
    exact ⟨[name, url], by simp, by simp⟩

/-- All (section, label) pairs of the fixed schema, section by section in
output order. -/
def schemaPairs : List (String × String) :=
  [("Camera", "Rear:"), ("Camera", "Flash:"), ("Camera", "Front:"),
   ("Camera", "Folded:"), ("Camera", "Main camera:"),
   ("Camera", "Second camera:"), ("Camera", "Third camera:"),
   ("Camera", "Specifications:"), ("Camera", "Video recording:"),
   ("Design", "Keys:"), ("Design", "Colors:"), ("Design", "Folded:"),
   ("Design", "Weight:"), ("Design", "Materials:"),
   ("Design", "Biometrics:"), ("Design", "Dimensions:"),
   ("Design", "Resistance:"),
   ("Battery", "Type:"), ("Battery", "Capacity:"), ("Battery", "Charging:"),
   ("Battery", "Max charge speed:"),
   ("Display", "Size:"), ("Display", "Features:"),
   ("Display", "Resolution:"), ("Display", "Technology:"),
   ("Display", "Refresh rate:"), ("Display", "Screen-to-body:"),
   ("Display", "Peak brightness:"), ("Display", "Front cover display:"),
   ("Cellular", "Technology:"), ("Cellular", "2G bands:"),
   ("Cellular", "3G bands:"), ("Cellular", "4G bands:"),
   ("Cellular", "5G bands:"), ("Cellular", "SIM type:"),
   ("Hardware", "OS:"), ("Hardware", "GPU:"), ("Hardware", "RAM:"),
   ("Hardware", "Processor:"), ("Hardware", "Device type:"),
   ("Hardware", "Internal storage:"),
   ("Multimedia", "Speakers:"), ("Multimedia", "Headphones:"),
   ("Multimedia", "Screen mirroring:"),
   ("Multimedia", "Additional microphone(s):"),
   ("Connectivity & Features", "USB:"), ("Connectivity & Features", "Other:"),
   ("Connectivity & Features", "Wi-Fi:"),
   ("Connectivity & Features", "Sensors:"),
   ("Connectivity & Features", "Features:"),
   ("Connectivity & Features", "Location:"),
   ("Connectivity & Features", "Bluetooth:")]

/-- The four labels whose values the code synthesizes even when all raw
data is absent (my.py lines 229, 316, 317, 325). -/
def c5Exceptions : List (String × String) :=
  [("Design", "Keys:"), ("Hardware", "Device type:"),
   ("Hardware", "Internal storage:"), ("Multimedia", "Screen mirroring:")]

/-- Claim C5 counterexample: the Multimedia "Screen mirroring:" label's
data is absent on the empty-specs record, yet it maps to the hard-coded
string "Wireless screen share", not to the empty string as the claim
requires. -/
theorem c5_counterexample :
    lookup2 (transform_gsmarena_to_formatted emptyRecord) "Multimedia"
      "Screen mirroring:" = some "Wireless screen share" ∧
    lookup2 (transform_gsmarena_to_formatted emptyRecord) "Multimedia"
      "Screen mirroring:" ≠ some "" := by
  constructor
  · rfl
  · decide

/-- Claim C5 (amended): for every input record the normalized output has
exactly the eight section names as keys, in order, and each section
carries its full fixed label set regardless of which raw fields are
present — a label whose data is absent still exists as a key, never a
missing key.  Absent data is represented by the empty string for every
label EXCEPT four whose values are synthesized even with no data: on a
record with all raw data absent (empty `specs`), every schema label maps
to `some ""` apart from Design "Keys:" (a hard-coded constant), Hardware
"Device type:" (`"Smartphone"`), Hardware "Internal storage:" (which
degrades to `" (UFS), not expandable"`), and Multimedia
"Screen mirroring:" (`"Wireless screen share"`). -/
theorem c5_amended (data dataE : RawSpecRecord) (hE : dataE.specs = []) :
    (∀ pr ∈ schemaPairs, pr ∉ c5Exceptions →
      lookup2 (transform_gsmarena_to_formatted dataE) pr.1 pr.2 =
        some "") ∧
    lookup2 (transform_gsmarena_to_formatted dataE) "Design" "Keys:" =
      some "Right: Volume control, Lock/Unlock key" ∧
    lookup2 (transform_gsmarena_to_formatted dataE) "Hardware"
      "Device type:" = some "Smartphone" ∧
    lookup2 (transform_gsmarena_to_formatted dataE) "Hardware"
      "Internal storage:" = some " (UFS), not expandable" ∧
    lookup2 (transform_gsmarena_to_formatted dataE) "Multimedia"
      "Screen mirroring:" = some "Wireless screen share" ∧
    (transform_gsmarena_to_formatted data).map Prod.fst =
      ["Camera", "Design", "Battery", "Display", "Cellular", "Hardware",
       "Multimedia", "Connectivity & Features"] ∧
    (cameraData data.specs).map Prod.fst =
      ["Rear:", "Flash:", "Front:", "Folded:", "Main camera:",
       "Second camera:", "Third camera:", "Specifications:",
       "Video recording:"] ∧
    (designData data.specs).map Prod.fst =
      ["Keys:", "Colors:", "Folded:", "Weight:", "Materials:",
       "Biometrics:", "Dimensions:", "Resistance:"] ∧
    (batteryData data.specs).map Prod.fst =
      ["Type:", "Capacity:", "Charging:", "Max charge speed:"] ∧
    (displayData data.specs).map Prod.fst =
      ["Size:", "Features:", "Resolution:", "Technology:", "Refresh rate:",
       "Screen-to-body:", "Peak brightness:", "Front cover display:"] ∧
    (cellularData data.specs).map Prod.fst =
      ["Technology:", "2G bands:", "3G bands:", "4G bands:", "5G bands:",
       "SIM type:"] ∧
    (hardwareData data.specs).map Prod.fst =
      ["OS:", "GPU:", "RAM:", "Processor:", "Device type:",
       "Internal storage:"] ∧
    (multimediaData data.specs).map Prod.fst =
      ["Speakers:", "Headphones:", "Screen mirroring:",
       "Additional microphone(s):"] ∧
    (connectivityData data.specs).map Prod.fst =
      ["USB:", "Other:", "Wi-Fi:", "Sensors:", "Features:", "Location:",
       "Bluetooth:"] := by
  have htr : transform_gsmarena_to_formatted dataE =
      transform_gsmarena_to_formatted emptyRecord := by
    unfold transform_gsmarena_to_formatted
    rw [hE]
    rfl
  refine ⟨?_, ?_, ?_, ?_, ?_, rfl, rfl, rfl, rfl, rfl, rfl, rfl, rfl,
    rfl⟩ <;> (rw [htr]; decide)

/-- Witness for the amended C5 at the concrete empty-specs record. -/
theorem c5_amended_witness :
    lookup2 (transform_gsmarena_to_formatted emptyRecord) "Design"
      "Keys:" = some "Right: Volume control, Lock/Unlock key" := by
  exact (c5_amended emptyRecord emptyRecord rfl).2.1

/-- A concrete MAIN CAMERA category holding both a non-empty "Dual" and a
non-empty "Single" key, for the C6 witness. -/
def c6Specs : Specs :=
  [("MAIN CAMERA",
    [("Dual", "12 MP, f/1.8, wide\n5 MP, macro"), ("Single", "8 MP")])]

/-- Claim C6: for every MAIN CAMERA content, the rear-camera fallback
chain tries the module keys in the fixed order Triple, Quad, Dual, Single
and selects the first non-empty value — the selection equals, for all
inputs, the spec-described `firstNonEmpty` of the four lookups in that
order, so an empty string at a higher-priority key is skipped in favor of
the next; whenever the selection is non-empty, the Rear: and Main camera:
fields derive from it (its raw and stripped first line); in particular
when Triple and Quad are empty and Dual is non-empty — e.g. when the
category holds non-empty Dual and Single keys — the selection is the Dual
value, never Single. -/
theorem c6_fallback_chain (specs : Specs) :
    mainCamSpecOf specs =
      firstNonEmpty [getS specs "MAIN CAMERA" "Triple",
        getS specs "MAIN CAMERA" "Quad", getS specs "MAIN CAMERA" "Dual",
        getS specs "MAIN CAMERA" "Single"] ∧
    (mainCamSpecOf specs ≠ "" →
      lookupA (cameraData specs) "Rear:" =
        some (String.mk
          ((pySplit '\n' (mainCamSpecOf specs).toList).headD [])) ∧
      lookupA (cameraData specs) "Main camera:" =
        some (String.mk
          (pyStrip
            ((pySplit '\n' (mainCamSpecOf specs).toList).headD [])))) ∧
    (getS specs "MAIN CAMERA" "Triple" = "" →
      getS specs "MAIN CAMERA" "Quad" = "" →
      getS specs "MAIN CAMERA" "Dual" ≠ "" →
      mainCamSpecOf specs = getS specs "MAIN CAMERA" "Dual") := by
  refine ⟨?_, ?_, ?_⟩
  · by_cases h1 : getS specs "MAIN CAMERA" "Triple" = "" <;>
      by_cases h2 : getS specs "MAIN CAMERA" "Quad" = "" <;>
        by_cases h3 : getS specs "MAIN CAMERA" "Dual" = "" <;>
          by_cases h4 : getS specs "MAIN CAMERA" "Single" = "" <;>
            simp [mainCamSpecOf, firstNonEmpty, pyOr, h1, h2, h3, h4]
  · intro hne
    constructor
    · simp only [cameraData, lookupA]
      simp [hne]
    · simp only [cameraData, lookupA]
      simp [hne, camSpecsOf]
      obtain ⟨x, xs, hxx⟩ :=
        List.exists_cons_of_ne_nil
          (pySplit_ne_nil '\n' (mainCamSpecOf specs).data)
      rw [hxx]
      simp
  · intro h1 h2 h3
    unfold mainCamSpecOf
    rw [h1, h2]
    simp [pyOr, h3]

/-- Witness for C6 at `c6Specs`: the selection is non-empty (it is the
Dual value) and the Rear: field is its first line, not the Single value
"8 MP". -/
theorem c6_witness :
    lookupA (cameraData c6Specs) "Rear:" = some "12 MP, f/1.8, wide" := by
  have h := ((c6_fallback_chain c6Specs).2.1 (by decide)).1
  rw [h]
  rfl

/-- A string cannot equal itself followed by a non-empty suffix. -/
theorem string_ne_append_of_len (s t : String) (h : 0 < t.length) :
    s ≠ s ++ t := by
  intro he
  have hl : s.length = s.length + t.length := by
    conv_lhs => rw [he]
    exact String.length_append s t
  omega

/-- Claim C7 counterexample: for the raw battery type "5000 mAh Li-Ion"
the code also strips comma/space characters from both ends after removing
the matched capacity (Python `strip(', ')`, my.py line 243), producing
"Li-Ion", while the claim's "raw string with the matched capacity removed"
is " Li-Ion". -/
theorem c7_counterexample :
    battCapacity "5000 mAh Li-Ion" = "5000 mAh" ∧
    battTypeClaim "5000 mAh Li-Ion" = " Li-Ion" ∧
    battTypeField "5000 mAh Li-Ion" = "Li-Ion" ∧
    battTypeField "5000 mAh Li-Ion" ≠ battTypeClaim "5000 mAh Li-Ion" := by
  refine ⟨by decide, by decide, by decide, by decide⟩

/-- Claim C7 (amended): Capacity: is the first `<number> mAh` match of the
raw battery-type string, stripped (empty when there is no match); Type: is
the raw string with every occurrence of the matched capacity text removed
AND comma/space characters stripped from both ends, with the suffix
", Not user replaceable" appended exactly when that remaining text
contains "non-removable" case-insensitively; in particular the raw value
"Li-Ion 5000 mAh, non-removable" yields Capacity "5000 mAh" and a Type
value containing "Not user replaceable". -/
theorem c7_battery (bts : String) (m : Option (List Char))
    (hm : searchPos mAhAt bts.toList = m) :
    battCapacity bts = (m.map (fun g => String.mk (pyStrip g))).getD "" ∧
    battTypeInfo bts =
      (m.map (fun g =>
        String.mk (stripChars [',', ' '] (replAllL g bts.toList)))).getD bts ∧
    (battTypeField bts = battTypeInfo bts ++ ", Not user replaceable" ↔
      hasSub "non-removable".toList (lowerAll (battTypeInfo bts).toList) =
        true) ∧
    battCapacity "Li-Ion 5000 mAh, non-removable" = "5000 mAh" ∧
    hasSub "Not user replaceable".toList
      (battTypeField "Li-Ion 5000 mAh, non-removable").toList = true := by
  subst hm
  refine ⟨?_, ?_, ?_, by decide, by decide⟩
  · cases hs : searchPos mAhAt bts.data <;> simp [battCapacity, hs]
  · cases hs : searchPos mAhAt bts.data <;> simp [battTypeInfo, hs]
  by_cases hcc : hasSub "non-removable".toList
      (lowerAll (battTypeInfo bts).toList) = true
  · constructor
    · intro _
      exact hcc
    · intro _
      unfold battTypeField
      rw [if_pos hcc]
  · constructor
    · intro he
      exfalso
      have hne : battTypeField bts = battTypeInfo bts := by
        unfold battTypeField
        rw [if_neg hcc]
      rw [hne] at he
      exact string_ne_append_of_len (battTypeInfo bts)
        ", Not user replaceable" (by decide) he
    · intro h2
      exact absurd h2 hcc

/-- Witness for the amended C7 at the scenario input, with the match
hypothesis discharged by computation. -/
theorem c7_witness :
    battTypeField "Li-Ion 5000 mAh, non-removable" =
      battTypeInfo "Li-Ion 5000 mAh, non-removable" ++
        ", Not user replaceable" := by
  exact (c7_battery "Li-Ion 5000 mAh, non-removable"
    (searchPos mAhAt "Li-Ion 5000 mAh, non-removable".toList)
    rfl).2.2.1.mpr (by decide)

/-- Lowercasing preserves emptiness: the lowered text is the empty string
exactly when the original is. -/
theorem lowerAll_empty_iff (s : String) :
    String.mk (lowerAll s.toList) = "" ↔ s = "" := by
  cases s with
  | mk data =>
    cases data with
    | nil => simp [lowerAll]
    | cons c cs => simp [lowerAll, String.ext_iff]

/-- Claim C8: storage and RAM come from the first matched (storage, RAM)
pair of the MEMORY/Internal text; when no paired pattern matches, each
falls back to its independent single-value pattern, optional and
defaulting to the empty string; the Internal storage: value carries the
suffix ", not expandable" exactly when the looked-up card-slot text is
"no" case-insensitively or empty (an absent field is observed as "" via
the lookup default); and the scenario "256GB 12GB RAM" with card slot
"No" yields RAM "12GB" and Internal storage "256GB (UFS), not
expandable". -/
theorem c8_hardware (im cardSlot : String)
    (p : Option (List Char × List Char)) (hp : memPairOf im = p) :
    hwStorage im =
      (p.map (fun pr => String.mk pr.1)).getD
        (((searchPos storageAt im.toList).map
          (fun s => String.mk s)).getD "") ∧
    hwRam im =
      (p.map (fun pr => String.mk pr.2)).getD
        (((searchPos ramAt im.toList).map (fun r => String.mk r)).getD "") ∧
    (hwInternalField im cardSlot =
        hwStorage im ++ " (UFS), not expandable" ↔
      (String.mk (lowerAll cardSlot.toList) = "no" ∨ cardSlot = "")) ∧
    hwRam "256GB 12GB RAM" = "12GB" ∧
    hwInternalField "256GB 12GB RAM" "No" =
      "256GB (UFS), not expandable" := by
  subst hp
  refine ⟨?_, ?_, ?_, by decide, by decide⟩
  · cases hs : memPairOf im with
    | none =>
      simp only [hs, Option.map_none', Option.getD_none]
      unfold hwStorage
      rw [hs]
      cases h2 : searchPos storageAt im.data <;> simp [h2]
    | some pr =>
      unfold hwStorage
      rw [hs]
      simp [hs]
  · cases hs : memPairOf im with
    | none =>
      simp only [hs, Option.map_none', Option.getD_none]
      unfold hwRam
      rw [hs]
      cases h2 : searchPos ramAt im.data <;> simp [h2]
    | some pr =>
      unfold hwRam
      rw [hs]
      simp [hs]
  · by_cases hc : (["no", ""] : List String).contains
        (String.mk (lowerAll cardSlot.toList)) = true
    · have hc2 : String.mk (lowerAll cardSlot.toList) = "no" ∨
          String.mk (lowerAll cardSlot.toList) = "" := by
        simpa using hc
      constructor
      · intro _
        rcases hc2 with h | h
        · exact Or.inl h
        · exact Or.inr ((lowerAll_empty_iff cardSlot).mp h)
      · intro _
        unfold hwInternalField
        rw [if_pos hc]
    · constructor
      · intro he
        exfalso
        rw [hwInternalField, if_neg hc] at he
        have h1 := congrArg String.length he
        rw [String.length_append, String.length_append] at h1
        have e1 : (" (UFS)" : String).length = 6 := rfl
        have e2 : (" (UFS), not expandable" : String).length = 22 := rfl
        omega
      · intro hor
        exfalso
        apply hc
        rcases hor with h | h
        · rw [h]
          decide
        · rw [(lowerAll_empty_iff cardSlot).mpr h]
          decide

/-- Witness for C8 at the scenario internal-memory text and card slot. -/
theorem c8_witness :
    hwInternalField "256GB 12GB RAM" "No" =
      "256GB (UFS), not expandable" := by
  exact (c8_hardware "256GB 12GB RAM" "No"
    (memPairOf "256GB 12GB RAM") rfl).2.2.2.2

/-- Claim C9: the Refresh rate: field is the first `<number>Hz` match of
the DISPLAY/Type text and the Peak brightness: field is the reformatted
first case-insensitive `<number> nits (peak)` match; each extraction is
independent and optional — no match yields the empty field, never an
error — and the scenario "AMOLED, 120Hz, 1200 nits (peak)" yields
Refresh rate "120Hz" and Peak brightness "1200 cd/m2 (nit)". -/
theorem c9_display (dts : String) (r b : Option (List Char))
    (hr : searchPos hzAt dts.toList = r)
    (hb : searchPos brightAt dts.toList = b) :
    dispRefresh dts = (r.map (fun g => String.mk g)).getD "" ∧
    dispBright dts =
      (b.map (fun g => String.mk g ++ " cd/m2 (nit)")).getD "" ∧
    dispRefresh "AMOLED, 120Hz, 1200 nits (peak)" = "120Hz" ∧
    dispBright "AMOLED, 120Hz, 1200 nits (peak)" = "1200 cd/m2 (nit)" := by
  subst hr
  subst hb
  refine ⟨?_, ?_, by decide, by decide⟩
  · cases hs : searchPos hzAt dts.data <;> simp [dispRefresh, hs]
  · cases hs : searchPos brightAt dts.data <;> simp [dispBright, hs]

/-- Witness for C9 at the scenario display-type text. -/
theorem c9_witness :
    dispBright "AMOLED, 120Hz, 1200 nits (peak)" = "1200 cd/m2 (nit)" := by
  exact (c9_display "AMOLED, 120Hz, 1200 nits (peak)"
    (searchPos hzAt "AMOLED, 120Hz, 1200 nits (peak)".toList)
    (searchPos brightAt "AMOLED, 120Hz, 1200 nits (peak)".toList)
    rfl rfl).2.2.2

/-- Claim C10: the Max charge speed: field concatenates the optional
"Wired: <speed>" and "Wireless: <speed>" parts — the wired part present
exactly when `<number>W` followed by "wired" matches case-insensitively,
likewise wireless — with NO separator between them; both present yields
"Wired: 45WWireless: 15W" for the scenario text, one present yields just
that part, and neither yields the empty string. -/
theorem c10_max_charge (chg : String) (w wl : Option (List Char))
    (hw : searchPos (wSpeedAt "wired".toList) chg.toList = w)
    (hwl : searchPos (wSpeedAt "wireless".toList) chg.toList = wl) :
    battMaxSpeed chg =
      (w.map (fun g => "Wired: " ++ String.mk g)).getD "" ++
        (wl.map (fun g => "Wireless: " ++ String.mk g)).getD "" ∧
    battMaxSpeed "45W wired, 15W wireless" = "Wired: 45WWireless: 15W" := by
  refine ⟨?_, by decide⟩
  simp only [battMaxSpeed]
  rw [hw, hwl]
  cases w <;> cases wl <;> simp [joinAll, String.append_empty]

/-- Witness for C10 at the scenario charging text. -/
theorem c10_witness :
    battMaxSpeed "45W wired, 15W wireless" = "Wired: 45WWireless: 15W" := by
  exact (c10_max_charge "45W wired, 15W wireless"
    (searchPos (wSpeedAt "wired".toList) "45W wired, 15W wireless".toList)
    (searchPos (wSpeedAt "wireless".toList)
      "45W wired, 15W wireless".toList) rfl rfl).2
